import Mathlib

/-!
Verification of the ArboMAP GRIDMET downloader pipeline (Google Earth
Engine scripts, versions 1.0, 2.0, 2.1 and 2.2).  The pipeline is built
from pixelwise raster operations (variable derivation, per-day-of-year
climatology, anomaly normalization) followed by a zonal export
(reduceRegions over counties, flatten, rename, export with selectors).

Modelling conventions:
- Every raster operation used by the scripts is pixelwise, so the
  derivation / climatology / anomaly stages are modelled at a single
  pixel: a band value is an `Option Rat`, where `none` is an Earth
  Engine masked (missing / NaN) pixel and `some q` a valid value.
- The zonal stage needs whole rasters, so there images carry bands as
  maps from a pixel index to an optional value, and a county carries the
  list of pixel indices intersecting it.
- Earth Engine library primitives are embedded with their documented
  semantics: binary image operations mask the output where either input
  is masked; division returns 0 for division by 0; reducers skip masked
  inputs and return a masked output for an empty input set;
  ee.Reducer.stdDev is the population standard deviation (the sample
  variant is the separate ee.Reducer.sampleStdDev); collection filters
  keep order; filterDate is start-inclusive and end-exclusive.
- Standard deviations are irrational in general, so the climatology
  builder is embedded through the square of the stdDev band (the
  population variance), which is a rational; the link between a stdDev
  band and its square is the relation IsSqrtOf below.
-/

namespace ArboMAP

/-! ### Earth Engine pixel primitives -/

/-- Subtraction of two pixel values: Earth Engine masks the output where
either input is masked. -/
def eeSub : Option ℚ → Option ℚ → Option ℚ
  | some a, some b => some (a - b)
  | _, _ => none

/-- Division of two pixel values: Earth Engine masks the output where
either input is masked, and returns 0 for division by 0. -/
def eeDiv : Option ℚ → Option ℚ → Option ℚ
  | some a, some b => some (if b = 0 then 0 else a / b)
  | _, _ => none

/-- Valid (unmasked) values of a list of pixel values; Earth Engine
reducers skip masked inputs. -/
def validVals (xs : List (Option ℚ)) : List ℚ :=
  xs.filterMap id

/-- Semantics of ee.Reducer.mean on one pixel across a list of inputs:
the arithmetic mean of the unmasked inputs, masked when there are none. -/
def eeMean (xs : List (Option ℚ)) : Option ℚ :=
  let vs := validVals xs
  if vs.length = 0 then none
  else some (vs.sum / (vs.length : ℚ))

/-- Semantics of ee.Reducer.stdDev on one pixel, squared: ee.Reducer.stdDev
computes the population standard deviation (divisor n) of the unmasked
inputs, masked when there are none; to remain in the rationals we track
the square of that band, the population variance. -/
def eeStdDevSq (xs : List (Option ℚ)) : Option ℚ :=
  let vs := validVals xs
  if vs.length = 0 then none
  else some (((vs.map (fun v => (v - vs.sum / (vs.length : ℚ)) ^ 2)).sum) / (vs.length : ℚ))

/-- Relation between a standard-deviation pixel value and its square:
both masked, or the first is the nonnegative square root of the second. -/
def IsSqrtOf (s v : Option ℚ) : Prop :=
  (v = none ∧ s = none) ∨ (∃ a b, s = some a ∧ v = some b ∧ 0 ≤ a ∧ a ^ 2 = b)

/-! ### Calendar dates

Earth Engine dates have day granularity here; a date is a calendar
(year, month, day) triple, ordered by the chronological rank used below. -/

structure CalDate where
  year : ℤ
  month : ℕ
  day : ℕ
deriving DecidableEq, Repr

/-- Gregorian leap-year test. -/
def isLeap (y : ℤ) : Bool :=
  y % 4 == 0 && (y % 100 != 0 || y % 400 == 0)

/-- Number of days of a month (1..12) of a given year. -/
def daysInMonth (y : ℤ) (m : ℕ) : ℕ :=
  if m = 2 then (if isLeap y then 29 else 28)
  else if m = 4 ∨ m = 6 ∨ m = 9 ∨ m = 11 then 30
  else 31

/-- Total days in months 1..m of year y. -/
def daysUpTo (y : ℤ) : ℕ → ℕ
  | 0 => 0
  | m + 1 => daysUpTo y m + daysInMonth y (m + 1)

/-- One-based ordinal day of a date within its calendar year. -/
def dayOfYear (d : CalDate) : ℕ :=
  daysUpTo d.year (d.month - 1) + d.day

/-- Zero-based day-of-year offset, the value of
ee.Date.getRelative with units day and year. -/
def getRelativeDayYear (d : CalDate) : ℕ :=
  dayOfYear d - 1

/-- Calendar validity of a date triple. -/
def ValidDate (d : CalDate) : Prop :=
  1 ≤ d.month ∧ d.month ≤ 12 ∧ 1 ≤ d.day ∧ d.day ≤ daysInMonth d.year d.month

instance (d : CalDate) : Decidable (ValidDate d) := by
  unfold ValidDate; infer_instance

/-- Chronological rank of a date; on valid dates it orders exactly as the
underlying timestamps do. -/
def dateRank (d : CalDate) : ℤ :=
  d.year * 10000 + (d.month : ℤ) * 100 + (d.day : ℤ)

/-- Timestamp comparison, non-strict. -/
def dateLE (a b : CalDate) : Bool :=
  dateRank a ≤ dateRank b

/-- Timestamp comparison, strict. -/
def dateLT (a b : CalDate) : Bool :=
  dateRank a < dateRank b

/-- The calendar day after a given date, the value of
ee.Date.advance by 1 day. -/
def nextDay (d : CalDate) : CalDate :=
  if d.day < daysInMonth d.year d.month then ⟨d.year, d.month, d.day + 1⟩
  else if d.month < 12 then ⟨d.year, d.month + 1, 1⟩
  else ⟨d.year + 1, 1, 1⟩

/-! ### Variable derivation (addvars, version 2.1)

After the select on gridmet_filt a raw frame carries the bands
pr, rmax, rmin, tmin, tmax, vpd, vs and its timestamp. -/

structure RawImageV2 where
  t : CalDate
  pr : Option ℚ
  rmax : Option ℚ
  rmin : Option ℚ
  tmin : Option ℚ
  tmax : Option ℚ
  vpd : Option ℚ
  vs : Option ℚ
deriving DecidableEq

/-- Derived frame produced by addvars: the final select keeps the bands
rmean, tminc, tmaxc, tmeanc, pr, vpd, vs, and the properties doy and
year are set; the timestamp is preserved. -/
structure CalcImageV2 where
  t : CalDate
  rmean : Option ℚ
  tminc : Option ℚ
  tmaxc : Option ℚ
  tmeanc : Option ℚ
  pr : Option ℚ
  vpd : Option ℚ
  vs : Option ℚ
  doy : ℕ
  year : ℤ
deriving DecidableEq

/-- Embedding of addvars (version 2.1): rmean is the mean reducer over
the rmax and rmin bands, tminc and tmaxc subtract 273.15, tmeanc is the
mean reducer over tminc and tmaxc, pr, vpd and vs are selected unchanged,
and the doy and year properties are set from the timestamp. -/
def addvars (image : RawImageV2) : CalcImageV2 :=
  let rmean := eeMean [image.rmax, image.rmin]
  let tminc := eeSub image.tmin (some (27315 / 100 : ℚ))
  let tmaxc := eeSub image.tmax (some (27315 / 100 : ℚ))
  let tmeanc := eeMean [tminc, tmaxc]
  { t := image.t
    rmean := rmean
    tminc := tminc
    tmaxc := tmaxc
    tmeanc := tmeanc
    pr := image.pr
    vpd := image.vpd
    vs := image.vs
    doy := getRelativeDayYear image.t + 1
    year := image.t.year }

/-! ### Climatology and anomalies (version 1.0)

The version 1.0 script keeps all bands when adding the derived ones; the
climatology and anomaly code reads only the bands tmeanc, rmean, vpd and
logpr, so those are the bands modelled here.  A derived frame carries its
timestamp and the doy property set by the version 1.0 addvars, which is
getRelativeDayYear plus one, that is dayOfYear of the timestamp. -/

structure CalcImageV1 where
  t : CalDate
  tmeanc : Option ℚ
  rmean : Option ℚ
  vpd : Option ℚ
  logpr : Option ℚ
  doyProp : ℕ
deriving DecidableEq

/-- The doy list ee.List.sequence(1, 366, 1), that is 1..366 in order. -/
def doy_list : List ℕ :=
  (List.range 366).map (fun k => k + 1)

/-- Long-term mean frame for one day of year: the mean reducer over the
frames whose calendar day of year equals the argument (the filter
ee.Filter.dayOfYear with equal endpoints), with the doy property set. -/
structure MeanImage where
  tmeanc_mean : Option ℚ
  rmean_mean : Option ℚ
  vpd_mean : Option ℚ
  logpr_mean : Option ℚ
  doy : ℕ
deriving DecidableEq

def mean_calc (gridmet_calc : List CalcImageV1) (doy : ℕ) : MeanImage :=
  let gridmet_doy := gridmet_calc.filter (fun i => dayOfYear i.t == doy)
  { tmeanc_mean := eeMean (gridmet_doy.map (fun i => i.tmeanc))
    rmean_mean := eeMean (gridmet_doy.map (fun i => i.rmean))
    vpd_mean := eeMean (gridmet_doy.map (fun i => i.vpd))
    logpr_mean := eeMean (gridmet_doy.map (fun i => i.logpr))
    doy := doy }

/-- Squared long-term standard-deviation frame for one day of year: the
square of each stdDev band produced by the stdDev reducer (a population
standard deviation) over the frames whose calendar day of year equals the
argument, with the doy property set. -/
structure StdevSqImage where
  tmeanc_stdDevSq : Option ℚ
  rmean_stdDevSq : Option ℚ
  vpd_stdDevSq : Option ℚ
  logpr_stdDevSq : Option ℚ
  doy : ℕ
deriving DecidableEq

def stdev_calc_sq (gridmet_calc : List CalcImageV1) (doy : ℕ) : StdevSqImage :=
  let gridmet_doy := gridmet_calc.filter (fun i => dayOfYear i.t == doy)
  { tmeanc_stdDevSq := eeStdDevSq (gridmet_doy.map (fun i => i.tmeanc))
    rmean_stdDevSq := eeStdDevSq (gridmet_doy.map (fun i => i.rmean))
    vpd_stdDevSq := eeStdDevSq (gridmet_doy.map (fun i => i.vpd))
    logpr_stdDevSq := eeStdDevSq (gridmet_doy.map (fun i => i.logpr))
    doy := doy }

/-- The list mean_list of the script: the mean frames for days 1..366 in
order. -/
def mean_list (gridmet_calc : List CalcImageV1) : List MeanImage :=
  doy_list.map (mean_calc gridmet_calc)

/-- The list stdev_list of the script, tracked through the squares of its
stdDev bands. -/
def stdev_sq_list (gridmet_calc : List CalcImageV1) : List StdevSqImage :=
  doy_list.map (stdev_calc_sq gridmet_calc)

/-- Standard-deviation frame as consumed by anomcalc: the stdDev bands
themselves (possibly irrational, so supplied as data and linked to the
squared frames through IsSqrtOf). -/
structure StdevImage where
  tmeanc_stdDev : Option ℚ
  rmean_stdDev : Option ℚ
  vpd_stdDev : Option ℚ
  logpr_stdDev : Option ℚ
  doy : ℕ
deriving DecidableEq

/-- Default frames used to express list indexing: ee.List.get faults on an
out-of-range index, and every use below is in range (index doy - 1 into a
366-element list with doy in 1..366), where getD agrees with it. -/
def defaultMeanImage : MeanImage :=
  { tmeanc_mean := none, rmean_mean := none, vpd_mean := none
    logpr_mean := none, doy := 0 }

def defaultStdevImage : StdevImage :=
  { tmeanc_stdDev := none, rmean_stdDev := none, vpd_stdDev := none
    logpr_stdDev := none, doy := 0 }

def defaultStdevSqImage : StdevSqImage :=
  { tmeanc_stdDevSq := none, rmean_stdDevSq := none, vpd_stdDevSq := none
    logpr_stdDevSq := none, doy := 0 }

/-- Output frame of anomcalc: the input frame with the four anomaly bands
added. -/
structure AnomImage where
  base : CalcImageV1
  tm_anom : Option ℚ
  rhm_anom : Option ℚ
  vpd_anom : Option ℚ
  logpr_anom : Option ℚ
deriving DecidableEq

/-- Embedding of anomcalc: look up the mean and stdDev frames at index
doy - 1, and add, for each of the four bands, the band minus the mean
band divided by the stdDev band. -/
def anomcalc (ml : List MeanImage) (sl : List StdevImage)
    (image : CalcImageV1) : AnomImage :=
  let curindex := image.doyProp - 1
  let cur_mean := ml.getD curindex defaultMeanImage
  let cur_stdev := sl.getD curindex defaultStdevImage
  { base := image
    tm_anom := eeDiv (eeSub image.tmeanc cur_mean.tmeanc_mean) cur_stdev.tmeanc_stdDev
    rhm_anom := eeDiv (eeSub image.rmean cur_mean.rmean_mean) cur_stdev.rmean_stdDev
    vpd_anom := eeDiv (eeSub image.vpd cur_mean.vpd_mean) cur_stdev.vpd_stdDev
    logpr_anom := eeDiv (eeSub image.logpr cur_mean.logpr_mean) cur_stdev.logpr_stdDev }

/-! ### Specification-side statistics

These two definitions follow the wording of the specification (sample
standard deviation with divisor n - 1; population with divisor n), in
squared form, to be compared with the reducer embedded from the source. -/

/-- Sample variance over the unmasked inputs, divisor n - 1, masked when
fewer than two inputs; the square of the sample standard deviation the
specification prescribes. -/
def sampleVarianceSpec (xs : List (Option ℚ)) : Option ℚ :=
  let vs := validVals xs
  if vs.length < 2 then none
  else some (((vs.map (fun v => (v - vs.sum / (vs.length : ℚ)) ^ 2)).sum) / ((vs.length : ℚ) - 1))

/-- Population variance over the unmasked inputs, written as the mean of
squares minus the square of the mean, masked when there are none. -/
def popVarianceSpec (xs : List (Option ℚ)) : Option ℚ :=
  let vs := validVals xs
  if vs.length = 0 then none
  else some (((vs.map (fun v => v ^ 2)).sum) / (vs.length : ℚ) - (vs.sum / (vs.length : ℚ)) ^ 2)

/-! ### Zonal export (versions 2.1 and 2.2)

A county feature has its STATEFP, NAME and GEOID properties and the list
of pixel indices whose footprint intersects it; reduceRegions with the
mean reducer attaches to each feature, in the order of the feature
collection, the mean of each selected band over those pixels, masked when
no pixel intersects.  The doy and year properties are first turned into
constant bands by image.metadata and reduced like the others. -/

structure County where
  statefp : String
  name : String
  geoid : String
  pixels : List ℕ
deriving DecidableEq

/-- Raster frame as consumed by the zonal stage: the timestamp, the doy
and year properties, and the seven bands selected by zonalsum, each a map
from pixel index to optional value. -/
structure ZImage where
  t : CalDate
  doyP : ℤ
  yearP : ℤ
  tmeanc : ℕ → Option ℚ
  tminc : ℕ → Option ℚ
  tmaxc : ℕ → Option ℚ
  pr : ℕ → Option ℚ
  rmean : ℕ → Option ℚ
  vpd : ℕ → Option ℚ
  vs : ℕ → Option ℚ

/-- Mean of a band over the pixels of a county, per reduceRegions with
the mean reducer: masked when the county intersects no pixel. -/
def regionMean (c : County) (band : ℕ → Option ℚ) : Option ℚ :=
  eeMean (c.pixels.map band)

/-- Output row of the version 2.1 export after the rename select and the
export selectors: the district column comes from the NAME property and
there is no fips column. -/
structure RowV21 where
  district : String
  doy : Option ℚ
  year : Option ℚ
  tminc : Option ℚ
  tmeanc : Option ℚ
  tmaxc : Option ℚ
  pr : Option ℚ
  rmean : Option ℚ
  vpd : Option ℚ
  vs : Option ℚ
deriving DecidableEq

/-- Row the version 2.1 zonalsum and rename produce for one frame and one
county. -/
def mkRowV21 (image : ZImage) (c : County) : RowV21 :=
  { district := c.name
    doy := regionMean c (fun _ => some (image.doyP : ℚ))
    year := regionMean c (fun _ => some (image.yearP : ℚ))
    tminc := regionMean c image.tminc
    tmeanc := regionMean c image.tmeanc
    tmaxc := regionMean c image.tmaxc
    pr := regionMean c image.pr
    rmean := regionMean c image.rmean
    vpd := regionMean c image.vpd
    vs := regionMean c image.vs }

/-- Embedding of the version 2.1 zonalsum: reduceRegions yields one
feature per county of the jurisdiction, in collection order. -/
def zonalsum (sumstate : List County) (image : ZImage) : List RowV21 :=
  sumstate.map (mkRowV21 image)

/-- Embedding of ImageCollection.filterDate: keeps, in order, the frames
whose timestamp is at or after the start and strictly before the end. -/
def filterDate (sddate eddate : CalDate) (coll : List ZImage) : List ZImage :=
  coll.filter (fun i => dateLE sddate i.t && dateLT i.t eddate)

/-- Embedding of the version 2.1 exportzonal: filter counties by STATEFP,
filter frames by the requested range with the end exclusive, map zonalsum
over the frames and flatten; the rename select and the export selectors
only shape the row type. -/
def exportzonal (counties : List County) (gridmet_calc : List ZImage)
    (stateFIPS : String) (sddate eddate : CalDate) : List RowV21 :=
  let sumstate := counties.filter (fun c => c.statefp == stateFIPS)
  let gridmet_sum := filterDate sddate eddate gridmet_calc
  ((gridmet_sum.map (zonalsum sumstate))).flatten

/-- Column selectors of the version 2.1 export (its newnames list). -/
def newnames_v21 : List String :=
  ["district", "doy", "year", "tminc", "tmeanc", "tmaxc", "pr", "rmean", "vpd", "vs"]

/-- Output row of the version 2.2 export: district from NAME and fips
from GEOID are both present. -/
structure RowV22 where
  district : String
  fips : String
  doy : Option ℚ
  year : Option ℚ
  tminc : Option ℚ
  tmeanc : Option ℚ
  tmaxc : Option ℚ
  pr : Option ℚ
  rmean : Option ℚ
  vpd : Option ℚ
  vs : Option ℚ
deriving DecidableEq

/-- Row the version 2.2 zonalSum and rename produce for one frame and one
county. -/
def mkRowV22 (image : ZImage) (c : County) : RowV22 :=
  { district := c.name
    fips := c.geoid
    doy := regionMean c (fun _ => some (image.doyP : ℚ))
    year := regionMean c (fun _ => some (image.yearP : ℚ))
    tminc := regionMean c image.tminc
    tmeanc := regionMean c image.tmeanc
    tmaxc := regionMean c image.tmaxc
    pr := regionMean c image.pr
    rmean := regionMean c image.rmean
    vpd := regionMean c image.vpd
    vs := regionMean c image.vs }

/-- Embedding of the version 2.2 exportZonal: the state is resolved to a
FIPS code (through the state dictionary in the user interface, taken here
as the given code), and the requested end date is advanced by one day
before the end-exclusive date filter. -/
def exportZonal (counties : List County) (gridmetCalculated : List ZImage)
    (stateFips : String) (userStartDate userEndReqDate : CalDate) : List RowV22 :=
  let selectedState := counties.filter (fun c => c.statefp == stateFips)
  let userEndDate := nextDay userEndReqDate
  let gridmetSummarized := filterDate userStartDate userEndDate gridmetCalculated
  ((gridmetSummarized.map (fun image => selectedState.map (mkRowV22 image)))).flatten

/-- Column selectors of the version 2.2 export (its newNames list). -/
def newNames_v22 : List String :=
  ["district", "fips", "doy", "year", "tminc", "tmeanc", "tmaxc", "pr", "rmean", "vpd", "vs"]

/-- Provenance keys of the version 2.1 export rows: the timestamp of the
frame and the GEOID of the county each row is generated from, in emission
order. -/
def rowKeys (counties : List County) (gridmet_calc : List ZImage)
    (stateFIPS : String) (sddate eddate : CalDate) : List (CalDate × String) :=
  let sumstate := counties.filter (fun c => c.statefp == stateFIPS)
  (((filterDate sddate eddate gridmet_calc).map
      (fun image => sumstate.map (fun c => (image.t, c.geoid))))).flatten

/-- Order on row keys: chronological on the date, then lexicographic on
the region identifier. -/
def keyLT (p q : CalDate × String) : Prop :=
  dateLT p.1 q.1 = true ∨ (p.1 = q.1 ∧ p.2 < q.2)

/-! ### Helper lemmas -/

lemma daysInMonth_le (y : ℤ) (m : ℕ) : daysInMonth y m ≤ 31 := by
  unfold daysInMonth
  split
  · split <;> omega
  · split <;> omega

lemma daysInMonth_ge (y : ℤ) (m : ℕ) : 28 ≤ daysInMonth y m := by
  unfold daysInMonth
  split
  · split <;> omega
  · split <;> omega

lemma daysUpTo_mono (y : ℤ) : ∀ {a b : ℕ}, a ≤ b → daysUpTo y a ≤ daysUpTo y b := by
  intro a b h
  induction b with
  | zero =>
    have ha : a = 0 := by omega
    subst ha; exact le_refl _
  | succ n ih =>
    by_cases hab : a ≤ n
    · exact le_trans (ih hab) (Nat.le_add_right _ _)
    · have ha : a = n + 1 := by omega
      subst ha; exact le_refl _

lemma daysUpTo_twelve_le (y : ℤ) : daysUpTo y 12 ≤ 366 := by
  have e : daysUpTo y 12 =
      0 + daysInMonth y 1 + daysInMonth y 2 + daysInMonth y 3 + daysInMonth y 4 +
      daysInMonth y 5 + daysInMonth y 6 + daysInMonth y 7 + daysInMonth y 8 +
      daysInMonth y 9 + daysInMonth y 10 + daysInMonth y 11 + daysInMonth y 12 := rfl
  have h2 : daysInMonth y 2 ≤ 29 := by
    show (if isLeap y then 29 else 28) ≤ 29
    split <;> omega
  have h1 : daysInMonth y 1 = 31 := rfl
  have h3 : daysInMonth y 3 = 31 := rfl
  have h4 : daysInMonth y 4 = 30 := rfl
  have h5 : daysInMonth y 5 = 31 := rfl
  have h6 : daysInMonth y 6 = 30 := rfl
  have h7 : daysInMonth y 7 = 31 := rfl
  have h8 : daysInMonth y 8 = 31 := rfl
  have h9 : daysInMonth y 9 = 30 := rfl
  have h10 : daysInMonth y 10 = 31 := rfl
  have h11 : daysInMonth y 11 = 30 := rfl
  have h12 : daysInMonth y 12 = 31 := rfl
  omega

lemma one_le_dayOfYear (d : CalDate) (h : 1 ≤ d.day) : 1 ≤ dayOfYear d := by
  unfold dayOfYear; omega

lemma dayOfYear_le_366 (d : CalDate) (h : ValidDate d) : dayOfYear d ≤ 366 := by
  obtain ⟨hm1, hm2, _, hd2⟩ := h
  have step : daysUpTo d.year (d.month - 1) + daysInMonth d.year d.month
      = daysUpTo d.year d.month := by
    have e : d.month = (d.month - 1) + 1 := by omega
    rw [e]
    rfl
  have mono := daysUpTo_mono d.year hm2
  have twelve := daysUpTo_twelve_le d.year
  unfold dayOfYear
  omega

lemma eeMean_pair (a b : ℚ) : eeMean [some a, some b] = some ((a + b) / 2) := by
  simp [eeMean, validVals]

lemma sum_map_sub_sq (l : List ℚ) (c : ℚ) :
    (l.map (fun v => (v - c) ^ 2)).sum
      = (l.map (fun v => v ^ 2)).sum - 2 * c * l.sum + (l.length : ℚ) * c ^ 2 := by
  induction l with
  | nil => simp
  | cons x xs ih =>
    simp only [List.map_cons, List.sum_cons, List.length_cons, ih]
    push_cast
    ring

lemma eeStdDevSq_eq_popVarianceSpec (xs : List (Option ℚ)) :
    eeStdDevSq xs = popVarianceSpec xs := by
  unfold eeStdDevSq popVarianceSpec
  by_cases h : (validVals xs).length = 0
  · simp [h]
  · simp only [h, if_false]
    rw [sum_map_sub_sq]
    have hn : ((validVals xs).length : ℚ) ≠ 0 := by exact_mod_cast h
    congr 1
    field_simp
    ring

lemma dateRank_inj (a b : CalDate) (ha : ValidDate a) (hb : ValidDate b)
    (h : dateRank a = dateRank b) : a = b := by
  obtain ⟨ham1, ham2, had1, had2⟩ := ha
  obtain ⟨hbm1, hbm2, hbd1, hbd2⟩ := hb
  have hda : a.day ≤ 31 := le_trans had2 (daysInMonth_le _ _)
  have hdb : b.day ≤ 31 := le_trans hbd2 (daysInMonth_le _ _)
  simp only [dateRank] at h
  have hy : a.year = b.year := by omega
  have hm : a.month = b.month := by omega
  have hd : a.day = b.day := by omega
  cases a; cases b
  simp_all

lemma dateRank_lt_next_iff (t ed : CalDate) (ht : ValidDate t) (hed : ValidDate ed) :
    dateRank t < dateRank (nextDay ed) ↔ dateRank t ≤ dateRank ed := by
  obtain ⟨htm1, htm2, htd1, htd2⟩ := ht
  obtain ⟨hem1, hem2, hed1, hed2⟩ := hed
  have hdt : t.day ≤ 31 := le_trans htd2 (daysInMonth_le _ _)
  have hde : ed.day ≤ 31 := le_trans hed2 (daysInMonth_le _ _)
  unfold nextDay
  split
  · rename_i hlt
    simp only [dateRank]
    push_cast
    omega
  · rename_i hnlt
    have hedday : ed.day = daysInMonth ed.year ed.month := by omega
    have hdimle : daysInMonth ed.year ed.month ≤ 31 := daysInMonth_le _ _
    have hdimge : 28 ≤ daysInMonth ed.year ed.month := daysInMonth_ge _ _
    split
    · rename_i hm12
      simp only [dateRank]
      constructor
      · intro hltr
        by_contra hgt
        push_neg at hgt
        have hy : t.year = ed.year := by push_cast at hltr hgt ⊢; omega
        have hm : t.month = ed.month := by push_cast at hltr hgt ⊢; omega
        have htd2e : t.day ≤ daysInMonth ed.year ed.month := by
          rw [← hy, ← hm]; exact htd2
        push_cast at hltr hgt
        omega
      · intro hler
        push_cast at hler ⊢
        omega
    · rename_i hm12
      have hem : ed.month = 12 := by omega
      have hdim12 : daysInMonth ed.year 12 = 31 := rfl
      rw [hem] at hedday
      rw [hdim12] at hedday
      simp only [dateRank]
      constructor
      · intro hltr
        by_contra hgt
        push_neg at hgt
        push_cast at hltr hgt
        omega
      · intro hler
        push_cast at hler ⊢
        omega

lemma dateLT_next_iff (t ed : CalDate) (ht : ValidDate t) (hed : ValidDate ed) :
    dateLT t (nextDay ed) = true ↔ (dateLT t ed = true ∨ t = ed) := by
  unfold dateLT
  simp only [decide_eq_true_eq]
  rw [dateRank_lt_next_iff t ed ht hed]
  constructor
  · intro h
    rcases lt_or_eq_of_le h with h2 | h2
    · exact Or.inl h2
    · exact Or.inr (dateRank_inj t ed ht hed h2)
  · intro h
    rcases h with h2 | h2
    · exact le_of_lt h2
    · rw [h2]

lemma mean_list_getD (coll : List CalcImageV1) (d : ℕ) (h1 : 1 ≤ d) (h2 : d ≤ 366) :
    (mean_list coll).getD (d - 1) defaultMeanImage = mean_calc coll d := by
  have hlen : d - 1 < (mean_list coll).length := by
    simp [mean_list, doy_list]; omega
  rw [List.getD_eq_getElem _ _ hlen]
  simp only [mean_list, doy_list, List.getElem_map, List.getElem_range]
  congr 1
  omega

lemma stdev_sq_list_getD (coll : List CalcImageV1) (d : ℕ) (h1 : 1 ≤ d) (h2 : d ≤ 366) :
    (stdev_sq_list coll).getD (d - 1) defaultStdevSqImage = stdev_calc_sq coll d := by
  have hlen : d - 1 < (stdev_sq_list coll).length := by
    simp [stdev_sq_list, doy_list]; omega
  rw [List.getD_eq_getElem _ _ hlen]
  simp only [stdev_sq_list, doy_list, List.getElem_map, List.getElem_range]
  congr 1
  omega

/-! ### Claim theorems -/

/-- C1, claim as stated (refuted): the climatology standard deviation of
the values 10, 12, 11, 13, 14 on day-of-year 200 is not the sample
standard deviation: the square of the stdDev band is the population
variance 2, while the square of the sample standard deviation of those
values is 5/2, so the stddev is the square root of 2, about 1.4142, not
about 1.5811. -/
theorem C1_counterexample :
    (stdev_calc_sq
        [⟨⟨2001, 7, 19⟩, some 10, none, none, none, 200⟩,
         ⟨⟨2002, 7, 19⟩, some 12, none, none, none, 200⟩,
         ⟨⟨2003, 7, 19⟩, some 11, none, none, none, 200⟩,
         ⟨⟨2004, 7, 18⟩, some 13, none, none, none, 200⟩,
         ⟨⟨2005, 7, 19⟩, some 14, none, none, none, 200⟩] 200).tmeanc_stdDevSq = some 2
    ∧ sampleVarianceSpec [some 10, some 12, some 11, some 13, some 14] = some (5 / 2)
    ∧ (stdev_calc_sq
        [⟨⟨2001, 7, 19⟩, some 10, none, none, none, 200⟩,
         ⟨⟨2002, 7, 19⟩, some 12, none, none, none, 200⟩,
         ⟨⟨2003, 7, 19⟩, some 11, none, none, none, 200⟩,
         ⟨⟨2004, 7, 18⟩, some 13, none, none, none, 200⟩,
         ⟨⟨2005, 7, 19⟩, some 14, none, none, none, 200⟩] 200).tmeanc_stdDevSq
        ≠ sampleVarianceSpec [some 10, some 12, some 11, some 13, some 14] := by
  have hfil : ∀ i : CalcImageV1, i ∈
      [(⟨⟨2001, 7, 19⟩, some 10, none, none, none, 200⟩ : CalcImageV1),
       ⟨⟨2002, 7, 19⟩, some 12, none, none, none, 200⟩,
       ⟨⟨2003, 7, 19⟩, some 11, none, none, none, 200⟩,
       ⟨⟨2004, 7, 18⟩, some 13, none, none, none, 200⟩,
       ⟨⟨2005, 7, 19⟩, some 14, none, none, none, 200⟩] → dayOfYear i.t = 200 := by
    decide
  refine ⟨?_, ?_, ?_⟩ <;>
    norm_num [stdev_calc_sq, sampleVarianceSpec, eeStdDevSq, validVals,
      List.filter, hfil, dayOfYear, daysUpTo, daysInMonth, isLeap,
      List.filterMap_cons, List.filterMap_nil, id_eq]

/-- C1, amended: every band of the climatology standard-deviation frame
of any day-of-year group is the population standard deviation with
divisor n: its square equals the population variance of the unmasked
group values (the mean of squares minus the square of the mean), masked
when the group is empty. -/
theorem C1_population_stddev (gridmet_calc : List CalcImageV1) (d : ℕ) :
    stdev_calc_sq gridmet_calc d =
      { tmeanc_stdDevSq := popVarianceSpec
          ((gridmet_calc.filter (fun i => dayOfYear i.t == d)).map (fun i => i.tmeanc))
        rmean_stdDevSq := popVarianceSpec
          ((gridmet_calc.filter (fun i => dayOfYear i.t == d)).map (fun i => i.rmean))
        vpd_stdDevSq := popVarianceSpec
          ((gridmet_calc.filter (fun i => dayOfYear i.t == d)).map (fun i => i.vpd))
        logpr_stdDevSq := popVarianceSpec
          ((gridmet_calc.filter (fun i => dayOfYear i.t == d)).map (fun i => i.logpr))
        doy := d } := by
  simp [stdev_calc_sq, eeStdDevSq_eq_popVarianceSpec]

/-- C5: for an input frame carrying all raw bands, the derived frame has
rmean the mean of rmax and rmin, tminc and tmaxc the Kelvin values minus
273.15, tmeanc the mean of tminc and tmaxc, and is tagged with the
one-based ordinal day of its date within its calendar year, in 1..366,
and with its calendar year. -/
theorem C5_derived_variables (image : RawImageV2) (a b r1 r2 : ℚ)
    (ht : ValidDate image.t)
    (h1 : image.tmin = some a) (h2 : image.tmax = some b)
    (h3 : image.rmax = some r1) (h4 : image.rmin = some r2) :
    (addvars image).rmean = some ((r1 + r2) / 2)
    ∧ (addvars image).tminc = some (a - 27315 / 100)
    ∧ (addvars image).tmaxc = some (b - 27315 / 100)
    ∧ (addvars image).tmeanc = some (((a - 27315 / 100) + (b - 27315 / 100)) / 2)
    ∧ (addvars image).doy = dayOfYear image.t
    ∧ 1 ≤ (addvars image).doy ∧ (addvars image).doy ≤ 366
    ∧ (addvars image).year = image.t.year := by
  have hdoy1 : 1 ≤ dayOfYear image.t := one_le_dayOfYear _ ht.2.2.1
  have hdoy2 : dayOfYear image.t ≤ 366 := dayOfYear_le_366 _ ht
  refine ⟨?_, ?_, ?_, ?_, ?_, ?_, ?_, ?_⟩
  · simp [addvars, h3, h4, eeMean_pair]
  · simp [addvars, eeSub, h1]
  · simp [addvars, eeSub, h2]
  · simp [addvars, eeSub, h1, h2, eeMean_pair]
  · simp only [addvars, getRelativeDayYear]
    omega
  · simp only [addvars, getRelativeDayYear]
    omega
  · simp only [addvars, getRelativeDayYear]
    omega
  · rfl

/-- C5 witness at a concrete frame. -/
theorem C5_derived_variables_witness :
    (addvars ⟨⟨2021, 3, 1⟩, some 4, some 80, some 40, some 280, some 290, some 1, some 2⟩).tmeanc
      = some (((280 - 27315 / 100) + (290 - 27315 / 100)) / 2)
    ∧ (addvars ⟨⟨2021, 3, 1⟩, some 4, some 80, some 40, some 280, some 290, some 1, some 2⟩).doy
      = dayOfYear ⟨2021, 3, 1⟩ := by
  have h := C5_derived_variables
    ⟨⟨2021, 3, 1⟩, some 4, some 80, some 40, some 280, some 290, some 1, some 2⟩
    280 290 80 40 (by decide) rfl rfl rfl rfl
  exact ⟨h.2.2.2.1, h.2.2.2.2.1⟩

/-- C9: the derivation passes the bands pr, vpd and vs through unchanged
at every pixel; being a function of the input frame alone it has no other
effect. -/
theorem C9_passthrough (image : RawImageV2) :
    (addvars image).pr = image.pr ∧ (addvars image).vpd = image.vpd
      ∧ (addvars image).vs = image.vs :=
  ⟨rfl, rfl, rfl⟩

/-- C10: for a frame whose doy property is the day of year of its date
(as addvars sets it), the mean and standard-deviation climatology frames
looked up at index doy - 1 carry that same doy property and are exactly
the climatology entries computed from the frames whose calendar day of
year equals it, so no frame is normalized against the baseline of another
day of year. -/
theorem C10_baseline_alignment (gridmet_calc : List CalcImageV1) (image : CalcImageV1)
    (hprop : image.doyProp = dayOfYear image.t)
    (h1 : 1 ≤ image.doyProp) (h2 : image.doyProp ≤ 366) :
    ((mean_list gridmet_calc).getD (image.doyProp - 1) defaultMeanImage).doy = image.doyProp
    ∧ ((stdev_sq_list gridmet_calc).getD (image.doyProp - 1) defaultStdevSqImage).doy
        = image.doyProp
    ∧ (mean_list gridmet_calc).getD (image.doyProp - 1) defaultMeanImage
        = mean_calc gridmet_calc (dayOfYear image.t)
    ∧ (stdev_sq_list gridmet_calc).getD (image.doyProp - 1) defaultStdevSqImage
        = stdev_calc_sq gridmet_calc (dayOfYear image.t)
    ∧ (mean_calc gridmet_calc (dayOfYear image.t)).tmeanc_mean
        = eeMean ((gridmet_calc.filter
            (fun i => dayOfYear i.t == dayOfYear image.t)).map (fun i => i.tmeanc)) := by
  have e1 := mean_list_getD gridmet_calc image.doyProp h1 h2
  have e2 := stdev_sq_list_getD gridmet_calc image.doyProp h1 h2
  refine ⟨?_, ?_, ?_, ?_, ?_⟩
  · rw [e1]; rfl
  · rw [e2]; rfl
  · rw [e1, hprop]
  · rw [e2, hprop]
  · rfl

/-- C10 witness at a concrete frame and empty collection. -/
theorem C10_baseline_alignment_witness :
    ((mean_list []).getD 4 defaultMeanImage).doy = 5 := by
  have h := (C10_baseline_alignment []
    ⟨⟨2021, 1, 5⟩, none, none, none, none, 5⟩ (by decide) (by decide) (by decide)).1
  exact h

/-- C3, claim as stated (refuted): with a jurisdiction code matching zero
regions the version 2.1 export completes normally and returns the empty
table; no UnknownJurisdictionError is raised (the code has no error path
at all). -/
theorem C3_counterexample :
    ([⟨"46", "Minnehaha", "46099", [0]⟩] : List County).filter
        (fun c => c.statefp == "999") = []
    ∧ exportzonal [⟨"46", "Minnehaha", "46099", [0]⟩]
        [⟨⟨2021, 1, 2⟩, 2, 2021, fun _ => some 1, fun _ => some 1, fun _ => some 1,
          fun _ => some 1, fun _ => some 1, fun _ => some 1, fun _ => some 1⟩]
        "999" ⟨2021, 1, 1⟩ ⟨2021, 2, 1⟩ = [] :=
  ⟨rfl, rfl⟩

/-- C3, amended: for every invocation whose jurisdiction filter matches
zero regions, the export completes with zero output rows; it does not
fail. -/
theorem C3_empty_jurisdiction (counties : List County) (coll : List ZImage)
    (stateFIPS : String) (sddate eddate : CalDate)
    (h : counties.filter (fun c => c.statefp == stateFIPS) = []) :
    exportzonal counties coll stateFIPS sddate eddate = [] := by
  simp [exportzonal, zonalsum, h, List.flatten_eq_nil_iff]

/-- C3 witness at a concrete empty-match invocation. -/
theorem C3_empty_jurisdiction_witness :
    exportzonal ([⟨"46", "Minnehaha", "46099", [0]⟩] : List County)
      [] "999" ⟨2021, 1, 1⟩ ⟨2021, 2, 1⟩ = [] :=
  C3_empty_jurisdiction _ _ _ _ _ rfl

/-- C8, claim as stated (refuted): the version 2.1 export selectors are
district, doy, year, tminc, tmeanc, tmaxc, pr, rmean, vpd, vs; they do
not contain a fips column, so the claimed column list is wrong for that
export. -/
theorem C8_counterexample :
    newnames_v21 ≠ ["district", "fips", "doy", "year", "tminc", "tmeanc",
      "tmaxc", "pr", "rmean", "vpd", "vs"]
    ∧ "fips" ∉ newnames_v21 := by
  refine ⟨?_, ?_⟩ <;> decide

/-- C8, amended: the version 2.2 export selectors are exactly district,
fips, doy, year, tminc, tmeanc, tmaxc, pr, rmean, vpd, vs in that order,
and every output row of the version 2.2 export carries the display name
(NAME) in district and the region identifier (GEOID) in fips of the
county it was generated from; in version 2.1 the fips column is absent. -/
theorem C8_columns_v22 :
    newNames_v22 = ["district", "fips", "doy", "year", "tminc", "tmeanc",
      "tmaxc", "pr", "rmean", "vpd", "vs"]
    ∧ ∀ (counties : List County) (coll : List ZImage) (stateFips : String)
        (sd ed : CalDate) (row : RowV22),
        row ∈ exportZonal counties coll stateFips sd ed →
        ∃ c, c ∈ counties ∧ c.statefp = stateFips
          ∧ row.district = c.name ∧ row.fips = c.geoid := by
  refine ⟨rfl, ?_⟩
  intro counties coll stateFips sd ed row hrow
  simp only [exportZonal, List.mem_flatten, List.mem_map] at hrow
  obtain ⟨l, ⟨img, himg, hl⟩, hrowl⟩ := hrow
  subst hl
  obtain ⟨c, hc, hrow2⟩ := List.mem_map.mp hrowl
  refine ⟨c, (List.mem_filter.mp hc).1, eq_of_beq (List.mem_filter.mp hc).2, ?_, ?_⟩
  · rw [← hrow2]; rfl
  · rw [← hrow2]; rfl

/-- C8 witness at a concrete export invocation. -/
theorem C8_columns_v22_witness :
    ∃ c, c ∈ [(⟨"46", "Minnehaha", "46099", [0]⟩ : County)] ∧ c.statefp = "46"
      ∧ (mkRowV22 ⟨⟨2021, 1, 15⟩, 15, 2021, fun _ => some 1, fun _ => some 1,
          fun _ => some 1, fun _ => some 1, fun _ => some 1, fun _ => some 1,
          fun _ => some 1⟩ ⟨"46", "Minnehaha", "46099", [0]⟩).district = c.name
      ∧ (mkRowV22 ⟨⟨2021, 1, 15⟩, 15, 2021, fun _ => some 1, fun _ => some 1,
          fun _ => some 1, fun _ => some 1, fun _ => some 1, fun _ => some 1,
          fun _ => some 1⟩ ⟨"46", "Minnehaha", "46099", [0]⟩).fips = c.geoid :=
  C8_columns_v22.2 [⟨"46", "Minnehaha", "46099", [0]⟩]
    [⟨⟨2021, 1, 15⟩, 15, 2021, fun _ => some 1, fun _ => some 1, fun _ => some 1,
      fun _ => some 1, fun _ => some 1, fun _ => some 1, fun _ => some 1⟩]
    "46" ⟨2021, 1, 1⟩ ⟨2021, 1, 31⟩ _ (List.mem_singleton.mpr rfl)

/-- C4, claim as stated (refuted): at a pixel where the climatology
standard deviation is zero (here a single contributing year, whose
population standard deviation is zero), the anomaly is 0 by the Earth
Engine division-by-zero convention, not masked. -/
theorem C4_counterexample :
    (anomcalc [⟨some 10, none, none, none, 1⟩] [⟨some 0, none, none, none, 1⟩]
        ⟨⟨2001, 1, 1⟩, some 10, none, none, none, 1⟩).tm_anom = some 0
    ∧ (stdev_calc_sq [⟨⟨2001, 1, 1⟩, some 10, none, none, none, 1⟩] 1).tmeanc_stdDevSq
        = some 0
    ∧ some (0 : ℚ) ≠ (none : Option ℚ) := by
  refine ⟨?_, ?_, by simp⟩
  · simp [anomcalc, eeSub, eeDiv]
  · have hd : dayOfYear (⟨2001, 1, 1⟩ : CalDate) = 1 := by decide
    norm_num [stdev_calc_sq, eeStdDevSq, validVals, List.filter, hd,
      List.filterMap_cons, List.filterMap_nil, id_eq]

/-- C4, amended: every anomaly band of anomcalc equals the band minus the
looked-up climatology mean, divided by the looked-up climatology standard
deviation, pixelwise; where the standard deviation is masked the output
is masked (in particular for day-of-year groups with zero contributing
frames, whose stdDev frame is masked), where it is zero (in particular
single-frame groups) the output is 0 by the Earth Engine division
convention, and no division error is thrown. -/
theorem C4_anomaly_bands (ml : List MeanImage) (sl : List StdevImage)
    (image : CalcImageV1) (M : MeanImage) (S : StdevImage)
    (hM : ml.getD (image.doyProp - 1) defaultMeanImage = M)
    (hS : sl.getD (image.doyProp - 1) defaultStdevImage = S) :
    ((anomcalc ml sl image).tm_anom
        = eeDiv (eeSub image.tmeanc M.tmeanc_mean) S.tmeanc_stdDev
      ∧ (anomcalc ml sl image).rhm_anom
        = eeDiv (eeSub image.rmean M.rmean_mean) S.rmean_stdDev
      ∧ (anomcalc ml sl image).vpd_anom
        = eeDiv (eeSub image.vpd M.vpd_mean) S.vpd_stdDev
      ∧ (anomcalc ml sl image).logpr_anom
        = eeDiv (eeSub image.logpr M.logpr_mean) S.logpr_stdDev)
    ∧ (S.tmeanc_stdDev = none → (anomcalc ml sl image).tm_anom = none)
    ∧ (∀ x m s, image.tmeanc = some x → M.tmeanc_mean = some m →
        S.tmeanc_stdDev = some s → s ≠ 0 →
        (anomcalc ml sl image).tm_anom = some ((x - m) / s))
    ∧ (∀ x m, image.tmeanc = some x → M.tmeanc_mean = some m →
        S.tmeanc_stdDev = some 0 → (anomcalc ml sl image).tm_anom = some 0)
    ∧ (∀ (coll : List CalcImageV1) (d : ℕ),
        coll.filter (fun i => dayOfYear i.t == d) = [] →
        (stdev_calc_sq coll d).tmeanc_stdDevSq = none)
    ∧ (∀ (coll : List CalcImageV1) (d : ℕ) (f : CalcImageV1) (v : ℚ),
        coll.filter (fun i => dayOfYear i.t == d) = [f] → f.tmeanc = some v →
        (stdev_calc_sq coll d).tmeanc_stdDevSq = some 0)
    ∧ (∀ s v, IsSqrtOf s v → v = none → s = none)
    ∧ (∀ s v, IsSqrtOf s v → v = some 0 → s = some 0) := by
  have e1 : (anomcalc ml sl image).tm_anom
      = eeDiv (eeSub image.tmeanc M.tmeanc_mean) S.tmeanc_stdDev := by
    simp only [anomcalc]
    rw [hM, hS]
  refine ⟨⟨e1, ?_, ?_, ?_⟩, ?_, ?_, ?_, ?_, ?_, ?_, ?_⟩
  · simp only [anomcalc]; rw [hM, hS]
  · simp only [anomcalc]; rw [hM, hS]
  · simp only [anomcalc]; rw [hM, hS]
  · intro hnone
    rw [e1, hnone]
    cases eeSub image.tmeanc M.tmeanc_mean <;> rfl
  · intro x m s hx hm hs hs0
    rw [e1, hx, hm, hs]
    simp [eeSub, eeDiv, hs0]
  · intro x m hx hm hs
    rw [e1, hx, hm, hs]
    simp [eeSub, eeDiv]
  · intro coll d hfil
    simp [stdev_calc_sq, hfil, eeStdDevSq, validVals]
  · intro coll d f v hfil hv
    simp only [stdev_calc_sq, hfil]
    simp [eeStdDevSq, validVals, hv]
  · intro s v hsv hnone
    rcases hsv with ⟨_, hs⟩ | ⟨a, b, _, hb, _, _⟩
    · exact hs
    · rw [hnone] at hb; exact absurd hb (by simp)
  · intro s v hsv hzero
    rcases hsv with ⟨hv, _⟩ | ⟨a, b, hs, hb, ha, hab⟩
    · rw [hzero] at hv; exact absurd hv (by simp)
    · rw [hzero] at hb
      have hb0 : b = 0 := by
        have := hb.symm
        simpa using this
      have ha0 : a = 0 := by
        have h2 : a ^ 2 = 0 := by rw [hab, hb0]
        exact pow_eq_zero_iff (by norm_num) |>.mp h2
      rw [hs, ha0]

/-- C4 witness at a concrete frame, mean and standard deviation. -/
theorem C4_anomaly_bands_witness :
    (anomcalc [⟨some 8, none, none, none, 1⟩] [⟨some 2, none, none, none, 1⟩]
        ⟨⟨2001, 1, 1⟩, some 10, none, none, none, 1⟩).tm_anom = some ((10 - 8) / 2) :=
  (C4_anomaly_bands [⟨some 8, none, none, none, 1⟩] [⟨some 2, none, none, none, 1⟩]
      ⟨⟨2001, 1, 1⟩, some 10, none, none, none, 1⟩ ⟨some 8, none, none, none, 1⟩
      ⟨some 2, none, none, none, 1⟩ rfl rfl).2.2.1 10 8 2 rfl rfl rfl (by norm_num)

/-- C2, claim as stated (refuted): in the version 2.2 export the
requested end date is treated as inclusive, not exclusive: a frame dated
exactly the requested end date (so not strictly before it) still
contributes a row, because the code advances the requested end date by
one day before the end-exclusive filter. -/
theorem C2_counterexample :
    dateLT (⟨2021, 1, 31⟩ : CalDate) ⟨2021, 1, 31⟩ = false
    ∧ (exportZonal [⟨"46", "Minnehaha", "46099", [0]⟩]
        [⟨⟨2021, 1, 31⟩, 31, 2021, fun _ => some 1, fun _ => some 1, fun _ => some 1,
          fun _ => some 1, fun _ => some 1, fun _ => some 1, fun _ => some 1⟩]
        "46" ⟨2021, 1, 1⟩ ⟨2021, 1, 31⟩).length = 1 :=
  ⟨by decide, rfl⟩

/-- C2, amended: the version 2.1 export treats the requested end date as
exclusive (exactly the frames with start at or before the date and date
strictly before the end contribute), while the version 2.2 export treats
the requested end date as inclusive: it advances the end by one day
before the end-exclusive date filter, so exactly the frames with date up
to and including the requested end contribute, and the caller need not
add a day there. -/
theorem C2_end_date_semantics (coll : List ZImage) (sddate eddate : CalDate)
    (img : ZImage) (ht : ValidDate img.t) (hed : ValidDate eddate) :
    (img ∈ filterDate sddate eddate coll ↔
      img ∈ coll ∧ dateLE sddate img.t = true ∧ dateLT img.t eddate = true)
    ∧ (img ∈ filterDate sddate (nextDay eddate) coll ↔
      img ∈ coll ∧ dateLE sddate img.t = true
        ∧ (dateLT img.t eddate = true ∨ img.t = eddate))
    ∧ (∀ (counties : List County) (stateFIPS : String),
        exportzonal counties coll stateFIPS sddate eddate
          = ((filterDate sddate eddate coll).map
              (zonalsum (counties.filter (fun c => c.statefp == stateFIPS)))).flatten)
    ∧ (∀ (counties : List County) (stateFips : String),
        exportZonal counties coll stateFips sddate eddate
          = ((filterDate sddate (nextDay eddate) coll).map
              (fun image => (counties.filter (fun c => c.statefp == stateFips)).map
                (mkRowV22 image))).flatten) := by
  refine ⟨?_, ?_, fun _ _ => rfl, fun _ _ => rfl⟩
  · simp [filterDate, List.mem_filter, and_assoc]
  · simp [filterDate, List.mem_filter, and_assoc,
      dateLT_next_iff img.t eddate ht hed]

/-- C2 witness: a frame dated exactly the requested end date passes the
version 2.2 filter. -/
theorem C2_end_date_semantics_witness :
    (⟨⟨2021, 1, 31⟩, 31, 2021, fun _ => none, fun _ => none, fun _ => none,
      fun _ => none, fun _ => none, fun _ => none, fun _ => none⟩ : ZImage) ∈
      filterDate ⟨2021, 1, 1⟩ (nextDay ⟨2021, 1, 31⟩)
        [⟨⟨2021, 1, 31⟩, 31, 2021, fun _ => none, fun _ => none, fun _ => none,
          fun _ => none, fun _ => none, fun _ => none, fun _ => none⟩] := by
  have h := (C2_end_date_semantics
      [⟨⟨2021, 1, 31⟩, 31, 2021, fun _ => none, fun _ => none, fun _ => none,
        fun _ => none, fun _ => none, fun _ => none, fun _ => none⟩]
      ⟨2021, 1, 1⟩ ⟨2021, 1, 31⟩
      ⟨⟨2021, 1, 31⟩, 31, 2021, fun _ => none, fun _ => none, fun _ => none,
        fun _ => none, fun _ => none, fun _ => none, fun _ => none⟩
      (by decide) (by decide)).2.1
  exact h.mpr ⟨List.mem_singleton.mpr rfl, by decide, Or.inr rfl⟩

lemma length_flatten_map_const {α β : Type} (l : List α) (f : α → List β) (n : ℕ)
    (h : ∀ a, (f a).length = n) : ((l.map f).flatten).length = l.length * n := by
  induction l with
  | nil => simp
  | cons x xs ih =>
    simp only [List.map_cons, List.flatten_cons, List.length_append, h, ih,
      List.length_cons]
    ring

/-- C6: the version 2.1 export emits exactly one row per filtered frame
per matched region (D times R rows); under distinct frame dates and
distinct region identifiers the provenance keys of the rows are pairwise
distinct, so there is at most one row per region and date; a region with
no intersecting pixel still yields its row, with masked values; and every
row key comes from a frame of the collection inside the requested range,
so dates with no frame produce no rows. -/
theorem C6_row_count (counties : List County) (coll : List ZImage)
    (stateFIPS : String) (sddate eddate : CalDate)
    (hT : (coll.map (fun i => i.t)).Nodup)
    (hG : ((counties.filter (fun c => c.statefp == stateFIPS)).map
        (fun c => c.geoid)).Nodup) :
    (exportzonal counties coll stateFIPS sddate eddate).length
      = (filterDate sddate eddate coll).length
        * (counties.filter (fun c => c.statefp == stateFIPS)).length
    ∧ (rowKeys counties coll stateFIPS sddate eddate).length
      = (exportzonal counties coll stateFIPS sddate eddate).length
    ∧ (rowKeys counties coll stateFIPS sddate eddate).Nodup
    ∧ (∀ c ∈ counties.filter (fun c => c.statefp == stateFIPS), c.pixels = [] →
        ∀ img ∈ filterDate sddate eddate coll,
          mkRowV21 img c ∈ exportzonal counties coll stateFIPS sddate eddate
          ∧ (mkRowV21 img c).tmeanc = none ∧ (mkRowV21 img c).doy = none)
    ∧ (∀ p ∈ rowKeys counties coll stateFIPS sddate eddate,
        ∃ img ∈ coll, img.t = p.1
          ∧ dateLE sddate p.1 = true ∧ dateLT p.1 eddate = true) := by
  have hlen1 : (exportzonal counties coll stateFIPS sddate eddate).length
      = (filterDate sddate eddate coll).length
        * (counties.filter (fun c => c.statefp == stateFIPS)).length :=
    length_flatten_map_const (filterDate sddate eddate coll)
      (zonalsum (counties.filter (fun c => c.statefp == stateFIPS))) _
      (fun img => List.length_map _ _)
  have hlen2 : (rowKeys counties coll stateFIPS sddate eddate).length
      = (filterDate sddate eddate coll).length
        * (counties.filter (fun c => c.statefp == stateFIPS)).length := by
    show (((filterDate sddate eddate coll).map
        (fun image => (counties.filter (fun c => c.statefp == stateFIPS)).map
          (fun c => (image.t, c.geoid)))).flatten).length = _
    exact length_flatten_map_const _ _ _ (fun img => List.length_map _ _)
  refine ⟨hlen1, by rw [hlen1, hlen2], ?_, ?_, ?_⟩
  · simp only [rowKeys]
    rw [List.nodup_flatten]
    constructor
    · intro l hl
      obtain ⟨img, _, rfl⟩ := List.mem_map.mp hl
      have e : ((counties.filter (fun c => c.statefp == stateFIPS)).map
            (fun c => (img.t, c.geoid)))
          = ((counties.filter (fun c => c.statefp == stateFIPS)).map
              (fun c => c.geoid)).map (fun g => (img.t, g)) := by
        rw [List.map_map]
        rfl
      rw [e]
      exact hG.map (fun a b h => by simpa using congrArg Prod.snd h)
    · have hF : (filterDate sddate eddate coll).Pairwise (fun a b => a.t ≠ b.t) := by
        have hsub : List.Sublist (filterDate sddate eddate coll) coll :=
          List.filter_sublist coll
        have hnd : ((filterDate sddate eddate coll).map (fun i => i.t)).Nodup :=
          hT.sublist (hsub.map _)
        exact List.pairwise_map.mp hnd
      refine List.Pairwise.map _ ?_ hF
      intro a b hne x hxa hxb
      obtain ⟨c1, _, rfl⟩ := List.mem_map.mp hxa
      obtain ⟨c2, _, hx⟩ := List.mem_map.mp hxb
      exact hne (by simpa using (congrArg Prod.fst hx).symm)
  · intro c hc hpix img himg
    refine ⟨?_, ?_, ?_⟩
    · simp only [exportzonal, List.mem_flatten]
      exact ⟨zonalsum (counties.filter (fun c => c.statefp == stateFIPS)) img,
        List.mem_map_of_mem _ himg, List.mem_map_of_mem _ hc⟩
    · simp [mkRowV21, regionMean, hpix, eeMean, validVals]
    · simp [mkRowV21, regionMean, hpix, eeMean, validVals]
  · intro p hp
    simp only [rowKeys, List.mem_flatten, List.mem_map] at hp
    obtain ⟨l, ⟨img, himg, rfl⟩, hpl⟩ := hp
    obtain ⟨c, _, rfl⟩ := List.mem_map.mp hpl
    simp only [filterDate, List.mem_filter, Bool.and_eq_true] at himg
    exact ⟨img, himg.1, rfl, himg.2.1, himg.2.2⟩

/-- C6 witness at a concrete two-frame, two-county export, one county
with no intersecting pixel. -/
theorem C6_row_count_witness :
    (exportzonal [⟨"46", "A", "1", []⟩, ⟨"46", "B", "2", [0]⟩]
        [⟨⟨2021, 1, 1⟩, 1, 2021, fun _ => some 1, fun _ => some 1, fun _ => some 1,
          fun _ => some 1, fun _ => some 1, fun _ => some 1, fun _ => some 1⟩,
         ⟨⟨2021, 1, 2⟩, 2, 2021, fun _ => some 1, fun _ => some 1, fun _ => some 1,
          fun _ => some 1, fun _ => some 1, fun _ => some 1, fun _ => some 1⟩]
        "46" ⟨2021, 1, 1⟩ ⟨2021, 2, 1⟩).length
      = (filterDate ⟨2021, 1, 1⟩ ⟨2021, 2, 1⟩
          [⟨⟨2021, 1, 1⟩, 1, 2021, fun _ => some 1, fun _ => some 1, fun _ => some 1,
            fun _ => some 1, fun _ => some 1, fun _ => some 1, fun _ => some 1⟩,
           ⟨⟨2021, 1, 2⟩, 2, 2021, fun _ => some 1, fun _ => some 1, fun _ => some 1,
            fun _ => some 1, fun _ => some 1, fun _ => some 1, fun _ => some 1⟩]).length
        * (([⟨"46", "A", "1", []⟩, ⟨"46", "B", "2", [0]⟩] : List County).filter
            (fun c => c.statefp == "46")).length := by
  have h := C6_row_count [⟨"46", "A", "1", []⟩, ⟨"46", "B", "2", [0]⟩]
      [⟨⟨2021, 1, 1⟩, 1, 2021, fun _ => some 1, fun _ => some 1, fun _ => some 1,
        fun _ => some 1, fun _ => some 1, fun _ => some 1, fun _ => some 1⟩,
       ⟨⟨2021, 1, 2⟩, 2, 2021, fun _ => some 1, fun _ => some 1, fun _ => some 1,
        fun _ => some 1, fun _ => some 1, fun _ => some 1, fun _ => some 1⟩]
      "46" ⟨2021, 1, 1⟩ ⟨2021, 2, 1⟩ (by decide) (by decide)
  exact h.1

/-- C7, claim as stated (refuted): with frames supplied in the order
2021-01-01, 2021-01-03, 2021-01-02 and regions A, B, the output rows
follow the input order (doy 1, 1, 3, 3, 2, 2), not the claimed
date-sorted order (1, 1, 2, 2, 3, 3): the export never sorts. -/
theorem C7_counterexample :
    (exportzonal [⟨"46", "A", "1", [0]⟩, ⟨"46", "B", "2", [0]⟩]
        [⟨⟨2021, 1, 1⟩, 1, 2021, fun _ => some 1, fun _ => some 1, fun _ => some 1,
          fun _ => some 1, fun _ => some 1, fun _ => some 1, fun _ => some 1⟩,
         ⟨⟨2021, 1, 3⟩, 3, 2021, fun _ => some 1, fun _ => some 1, fun _ => some 1,
          fun _ => some 1, fun _ => some 1, fun _ => some 1, fun _ => some 1⟩,
         ⟨⟨2021, 1, 2⟩, 2, 2021, fun _ => some 1, fun _ => some 1, fun _ => some 1,
          fun _ => some 1, fun _ => some 1, fun _ => some 1, fun _ => some 1⟩]
        "46" ⟨2021, 1, 1⟩ ⟨2021, 2, 1⟩).map (fun r => (r.doy, r.district))
      = [(some 1, "A"), (some 1, "B"), (some 3, "A"),
         (some 3, "B"), (some 2, "A"), (some 2, "B")]
    ∧ ([(some (1 : ℚ), "A"), (some 1, "B"), (some 3, "A"),
         (some 3, "B"), (some 2, "A"), (some 2, "B")] : List (Option ℚ × String))
      ≠ [(some 1, "A"), (some 1, "B"), (some 2, "A"),
         (some 2, "B"), (some 3, "A"), (some 3, "B")] := by
  constructor
  · norm_num [exportzonal, zonalsum, mkRowV21, regionMean, eeMean, validVals,
      filterDate, dateLE, dateLT, dateRank, List.filter,
      List.filterMap_cons, List.filterMap_nil, id_eq]
  · simp

/-- C7, amended: the export emits rows in input order, frames in the
order of the filtered input collection and regions in the order of the
region collection within each frame; when the input frames are in
increasing date order and the regions in increasing identifier order, the
row keys are sorted by date and then by region identifier. -/
theorem C7_row_order (counties : List County) (coll : List ZImage)
    (stateFIPS : String) (sddate eddate : CalDate)
    (hsortT : coll.Pairwise (fun a b => dateLT a.t b.t = true))
    (hsortG : (counties.filter (fun c => c.statefp == stateFIPS)).Pairwise
        (fun a b => a.geoid < b.geoid)) :
    (rowKeys counties coll stateFIPS sddate eddate).Pairwise keyLT
    ∧ exportzonal counties coll stateFIPS sddate eddate
      = ((filterDate sddate eddate coll).map
          (zonalsum (counties.filter (fun c => c.statefp == stateFIPS)))).flatten := by
  refine ⟨?_, rfl⟩
  simp only [rowKeys]
  rw [List.pairwise_flatten]
  constructor
  · intro l hl
    obtain ⟨img, _, rfl⟩ := List.mem_map.mp hl
    exact List.Pairwise.map _ (fun a b h => Or.inr ⟨rfl, h⟩) hsortG
  · have hF : (filterDate sddate eddate coll).Pairwise
        (fun a b => dateLT a.t b.t = true) :=
      hsortT.sublist (List.filter_sublist coll)
    refine List.Pairwise.map _ ?_ hF
    intro a b hab x hx y hy
    obtain ⟨c1, _, rfl⟩ := List.mem_map.mp hx
    obtain ⟨c2, _, rfl⟩ := List.mem_map.mp hy
    exact Or.inl hab

/-- C7 witness at a concrete date-sorted and identifier-sorted input. -/
theorem C7_row_order_witness :
    (rowKeys [⟨"46", "A", "1", [0]⟩, ⟨"46", "B", "2", [0]⟩]
        [⟨⟨2021, 1, 1⟩, 1, 2021, fun _ => none, fun _ => none, fun _ => none,
          fun _ => none, fun _ => none, fun _ => none, fun _ => none⟩,
         ⟨⟨2021, 1, 2⟩, 2, 2021, fun _ => none, fun _ => none, fun _ => none,
          fun _ => none, fun _ => none, fun _ => none, fun _ => none⟩]
        "46" ⟨2021, 1, 1⟩ ⟨2021, 2, 1⟩).Pairwise keyLT := by
  have hg : (([⟨"46", "A", "1", [0]⟩, ⟨"46", "B", "2", [0]⟩] : List County).filter
      (fun c => c.statefp == "46")).Pairwise (fun a b => a.geoid < b.geoid) := by
    constructor
    · intro b hb
      rcases List.mem_singleton.mp hb with rfl
      rw [String.lt_iff_toList_lt]
      decide
    · exact List.pairwise_singleton _ _
  exact (C7_row_order [⟨"46", "A", "1", [0]⟩, ⟨"46", "B", "2", [0]⟩]
      [⟨⟨2021, 1, 1⟩, 1, 2021, fun _ => none, fun _ => none, fun _ => none,
        fun _ => none, fun _ => none, fun _ => none, fun _ => none⟩,
       ⟨⟨2021, 1, 2⟩, 2, 2021, fun _ => none, fun _ => none, fun _ => none,
        fun _ => none, fun _ => none, fun _ => none, fun _ => none⟩]
      "46" ⟨2021, 1, 1⟩ ⟨2021, 2, 1⟩ (by decide) hg).1

end ArboMAP
